import Mathlib

/-!
Verification of the NyaTab wallpaper lifecycle and synchronization engine.

This file gives a shallow embedding, in Lean, of the wallpaper data model and
of the operations of the repository (library storage, the persistence
adapter with quota degradation, the remote provider client, the shuffle
policy engine, and the background scheduler), and proves or refutes the
stated properties about them.

Modelling conventions:
- Asynchronous TypeScript functions become pure Lean functions with explicit
  state passing.  The durable `chrome.storage.local` area is a `Storage`
  record; each operation takes the storage state and returns the new one.
- Thrown exceptions become `Except String` or an `Option String` error
  component carrying the thrown message; `try/catch` becomes matching.
- Randomness (`Math.floor(Math.random() * n)`) is an explicit oracle
  `picks : Nat -> Nat` giving the index chosen by each successive call.
- The network (`fetch`) is an explicit oracle `FetchOutcome` giving the
  outcome of the single HTTP request a call performs.
- Storage writes can fail (quota); write success is an explicit oracle:
  a `Bool` flag, or a `List Wallpaper -> Bool` predicate where the outcome
  depends on the written payload.  Tiny bookkeeping writes (timestamps)
  are modelled as succeeding.
-/

namespace NyaTab

/-- Is `p` a prefix of `l`?  (Char-list version of `String.startsWith`.) -/
def listStartsWith : List Char → List Char → Bool
  | [], _ => true
  | _ :: _, [] => false
  | a :: as, b :: bs => a == b && listStartsWith as bs

/-- Does `l` contain `sub` as a contiguous run?  (JS `String.includes`.) -/
def listHasSub (sub : List Char) : List Char → Bool
  | [] => listStartsWith sub []
  | c :: cs => listStartsWith sub (c :: cs) || listHasSub sub cs

/-- JS `s.startsWith(p)`. -/
def strStartsWith (s p : String) : Bool :=
  listStartsWith p.toList s.toList

/-- JS `s.includes(sub)`. -/
def strIncludes (s sub : String) : Bool :=
  listHasSub sub.toList s.toList

/-- JS `s.toLowerCase()` (ASCII, which is all the code compares). -/
def strToLower (s : String) : String :=
  String.mk (s.toList.map Char.toLower)

/-- The `info` record of a `Wallpaper` (src/src/types/wallpaper.ts).
Optional fields are modelled with a sentinel default. -/
structure WallpaperInfo where
  title : String := ""
  source : String := ""
  uploadDate : String := ""
  fileSize : Nat := 0
  mimeType : String := ""
  description : String := ""
  tags : List String := []
deriving DecidableEq, Repr

/-- The `Wallpaper` entity (src/src/types/wallpaper.ts).  The `purity`
field is not declared in the interface but is read by the shuffle filter
as `(w as any).purity`; absent is modelled as `""`. -/
structure Wallpaper where
  id : String
  path : String := ""
  source : String := ""
  sourceType : String := "remote"
  thumbnail : String := ""
  resolution : String := ""
  info : WallpaperInfo := {}
  addedAt : String := ""
  purity : String := ""
deriving DecidableEq, Repr

instance : Inhabited Wallpaper := ⟨{ id := "" }⟩

/-- Number of library entries carrying the id `i`. -/
def countId (l : List Wallpaper) (i : String) : Nat :=
  l.countP (fun w => w.id == i)

/-- The durable `chrome.storage.local` area, restricted to the keys the
core uses: `currentWallpaper`, `wallpaperLibrary`, `wallpapers` (history)
and the `lastShuffleTime` bookkeeping key. -/
structure Storage where
  current : Option Wallpaper := none
  library : List Wallpaper := []
  history : List Wallpaper := []
  lastShuffleTime : Option String := none
deriving DecidableEq, Repr

/-- The persisted settings consumed by the shuffle policy engine. -/
structure Settings where
  refreshSource : String := "library"
  refreshNsfwFilter : String := "off"
deriving DecidableEq, Repr

/-- The in-memory redux snapshot (`state.wallpaper`) a foreground or
background store holds when the shuffle thunk runs. -/
structure Redux where
  library : List Wallpaper := []
  currentWallpaper : Option Wallpaper := none
deriving DecidableEq, Repr

/-- The `options` argument of the shuffle thunk. -/
structure ShuffleParams where
  source : Option String := none
  nsfwFilter : Option String := none
deriving DecidableEq, Repr

/-- The `WallpaperFilters` shape passed to the provider client
(src/src/store/slices/settingsSlice.ts plus the `nsfwMode` extension). -/
structure WallpaperFilters where
  categories : List String := []
  purity : List String := []
  sorting : String := ""
  order : String := ""
  query : Option String := none
  nsfw : Bool := false
  nsfwMode : String := "off"
deriving DecidableEq, Repr

/-- Splice the character 1 into position `i` of `s`, exactly as the
source does with `s.substr(0, i) + '1' + s.substr(i + 1)`. -/
def spliceOne (s : String) (i : Nat) : String :=
  String.mk (s.toList.take i ++ '1' :: s.toList.drop (i + 1))

/-- The categories bit-string built by `formatParams`
(src/src/services/wallpaperService.ts lines 27-47): one bit per
[general, anime, people], defaulting an all-zero selection to anime and
then forcing the anime bit on. -/
def formatCategoriesString (cats : List String) : String :=
  let s0 := "000"
  let s1 := if cats.contains "general" then spliceOne s0 0 else s0
  let s2 := if cats.contains "anime" then spliceOne s1 1 else s1
  let s3 := if cats.contains "people" then spliceOne s2 2 else s2
  let s4 := if s3 == "000" then "010" else s3
  if ((s4.toList.drop 1).take 1 == ['1']) then s4 else spliceOne s4 1

/-- The purity bit-string built by `formatParams`
(src/src/services/wallpaperService.ts lines 51-77): positions
[sfw, sketchy, nsfw] selected from the three-state `nsfwMode`. -/
def formatPurityString (nsfwMode : String) : String :=
  if nsfwMode == "only" then "011"
  else if nsfwMode == "allowed" then "111"
  else "100"

/-- A raw item of the Wallhaven search response (`WallhavenWallpaper`,
src/src/types/wallpaper.ts). -/
structure ProviderItem where
  id : String
  url : String := ""
  path : String := ""
  thumbsSmall : String := ""
  resolution : String := ""
  createdAt : String := ""
  fileSize : Nat := 0
  fileType : String := ""
  category : String := ""
  tags : List String := []
deriving DecidableEq, Repr

/-- The `meta` record of the Wallhaven search response. -/
structure MetaInfo where
  currentPageRaw : Nat := 1
  lastPageRaw : Nat := 1
  perPageRaw : Nat := 24
  totalRaw : Nat := 0
deriving DecidableEq, Repr

/-- Outcome oracle for the single `fetch` a `searchWallpapers` call
performs: the request can time out (the client aborts after 15s), fail at
the network level, come back with a non-OK HTTP status, parse to garbage,
or succeed with a data/meta payload. -/
inductive FetchOutcome where
  | timeout
  | netError (msg : String)
  | httpError (status : Nat) (statusText : String)
  | malformed
  | ok (data : List ProviderItem) (meta : MetaInfo)
deriving DecidableEq, Repr

/-- JS `s.charAt(0).toUpperCase() + s.slice(1)`. -/
def capitalizeFirst (s : String) : String :=
  String.mk (match s.toList with
    | [] => []
    | c :: cs => Char.toUpper c :: cs)

/-- `mapToWallpaper` (src/src/services/wallpaperService.ts lines 113-132):
maps a provider item into the `Wallpaper` shape, assigning
`sourceType = remote` and copying id, resolution, thumbnail and tags.
The `addedAt`/`uploadDate` timestamps are threaded as `now`. -/
def mapToWallpaper (now : String) (item : ProviderItem) : Wallpaper :=
  { id := item.id
    path := item.path
    source := item.url
    sourceType := "remote"
    thumbnail := item.thumbsSmall
    resolution := item.resolution
    info :=
      { title := "Wallhaven " ++ item.id
        source := item.url
        uploadDate := item.createdAt
        fileSize := item.fileSize
        mimeType := item.fileType
        description := item.resolution ++ " • " ++ capitalizeFirst item.category
        tags := item.tags }
    addedAt := now }

/-- The result shape of `searchWallpapers`. -/
structure SearchResult where
  wallpapers : List Wallpaper
  currentPage : Nat
  lastPage : Nat
  perPage : Nat
  total : Nat
deriving DecidableEq, Repr

/-- The inner request of `searchWallpapers`
(src/src/services/wallpaperService.ts lines 509-572): the fetch itself,
whose failures (abort/timeout, network error, non-OK status, malformed
body) are rethrown as errors and then replaced by the enclosing
parameter-stage catch. -/
def searchAttempt (now : String) (net : FetchOutcome) :
    Except String (List Wallpaper × MetaInfo) :=
  match net with
  | .ok data meta => .ok (data.map (mapToWallpaper now), meta)
  | .timeout => .error "Search request timed out. Please try again."
  | .netError m => .error ("Failed to fetch wallpapers: " ++ m)
  | .httpError status statusText =>
      .error ("Failed to fetch wallpapers: Wallhaven API error: "
        ++ toString status ++ " " ++ statusText)
  | .malformed => .error "Failed to fetch wallpapers: Unknown error"

/-- `searchWallpapers` (src/src/services/wallpaperService.ts lines
471-589).  The top-level catch converts every failure into an empty, valid
result with `total = 0`; the function never throws past its boundary. -/
def searchWallpapers (query : String) (page : Nat)
    (customFilters : WallpaperFilters) (now : String) (net : FetchOutcome) :
    SearchResult :=
  let _ := query
  let _ := page
  let _ := customFilters
  let staged : Except String (List Wallpaper × MetaInfo) :=
    match searchAttempt now net with
    | .ok r => .ok r
    | .error _ =>
        .error "Failed to process search parameters. Please try different search criteria."
  match staged with
  | .ok (ws, m) =>
      { wallpapers := ws
        currentPage := m.currentPageRaw
        lastPage := m.lastPageRaw
        perPage := m.perPageRaw
        total := m.totalRaw }
  | .error _ =>
      { wallpapers := []
        currentPage := 1
        lastPage := 1
        perPage := 24
        total := 0 }

/-- The raw message a failing `chrome.storage.local.set` rejects with when
the quota is hit (it contains the word `quota`, which is what the source
tests for). -/
def chromeQuotaMsg : String := "QUOTA_BYTES quota exceeded"

/-- `storageService.addToLibrary` (src/src/services/storageService.ts lines
127-143): read the library, do nothing when an entry with the same id
exists, otherwise unshift and save.  `libOk` is the write oracle for the
`wallpaperLibrary` key; a failed save rethrows the storage error. -/
def stAddToLibrary (libOk : List Wallpaper → Bool) (w : Wallpaper)
    (st : Storage) : Option String × Storage :=
  if st.library.any (fun x => x.id == w.id) then (none, st)
  else if libOk (w :: st.library) then (none, { st with library := w :: st.library })
  else (some chromeQuotaMsg, st)

/-- `storageService.saveCurrentWallpaper` (src/src/services/storageService.ts
lines 60-72): write the `currentWallpaper` key, then auto-add to the
library whenever `sourceType` is `local` (no check of `source`).  An error
from the auto-add propagates after the current write already happened. -/
def stSaveCurrentWallpaper (curOk : Bool) (libOk : List Wallpaper → Bool)
    (w : Wallpaper) (st : Storage) : Option String × Storage :=
  if curOk then
    let st1 := { st with current := some w }
    if w.sourceType == "local" then stAddToLibrary libOk w st1
    else (none, st1)
  else (some chromeQuotaMsg, st)

/-- The user-facing message `addToLibrary` in the background storage
service throws once quota degradation is exhausted, after the outer catch
wraps it (src/unnamed/part_009 lines 186 and 199). -/
def quotaUserMsg : String :=
  "Failed to add to library: Storage quota exceeded. Try removing some wallpapers from your library."

/-- The background-context `storageService.addToLibrary`
(src/unnamed/part_009 lines 133-201), acting on the library list: no-op
when the id exists; otherwise save `w :: lib`; on a quota failure, if
`w.path` is a `data:image` payload and a thumbnail exists, replace the
path with the thumbnail and retry the save once; if the retry fails too
(or no degradation applies), throw the user-facing quota message. -/
def bgAddToLibrary (libOk : List Wallpaper → Bool) (w : Wallpaper)
    (lib : List Wallpaper) : Except String (List Wallpaper) :=
  if lib.any (fun x => x.id == w.id) then .ok lib
  else if libOk (w :: lib) then .ok (w :: lib)
  else if w.path != "" && strStartsWith w.path "data:image" then
    if w.thumbnail != "" then
      let w1 := { w with path := w.thumbnail }
      if libOk (w1 :: lib) then .ok (w1 :: lib)
      else .error quotaUserMsg
    else .error quotaUserMsg
  else .error quotaUserMsg

/-- The background-context `storageService.saveCurrentWallpaper`
(src/unnamed/part_009 lines 60-75): write the `currentWallpaper` key, then
auto-add to the library only when `sourceType == local` and
`source == local_upload`. -/
def bgSaveCurrentWallpaper (curOk : Bool) (libOk : List Wallpaper → Bool)
    (w : Wallpaper) (st : Storage) : Option String × Storage :=
  if curOk then
    let st1 := { st with current := some w }
    if w.sourceType == "local" && w.source == "local_upload" then
      match bgAddToLibrary libOk w st1.library with
      | .ok lib1 => (none, { st1 with library := lib1 })
      | .error e => (some e, st1)
    else (none, st1)
  else (some chromeQuotaMsg, st)

/-- Drop the first history entry with id `i` (the `findIndex`/`splice`
pair of `addToWallpaperHistory`). -/
def removeFirstById (i : String) : List Wallpaper → List Wallpaper
  | [] => []
  | x :: xs => if x.id == i then xs else x :: removeFirstById i xs

/-- `addToWallpaperHistory` (src/src/services/wallpaperService.ts lines
151-175): move the wallpaper to the front of the 50-item `wallpapers`
history list.  Errors are caught and swallowed, so a failed write leaves
the history untouched. -/
def addToWallpaperHistory (histOk : Bool) (w : Wallpaper) (st : Storage) :
    Storage :=
  if histOk then
    { st with history := (w :: removeFirstById w.id st.history).take 50 }
  else st

/-- The shared body of `wallpaperService.saveCurrentWallpaper`
(src/src/services/wallpaperService.ts lines 676-757): the storage-service
save, followed by a caught auto-add for local uploads and the history
update. -/
def wsSaveCore (curOk : Bool) (libOk : List Wallpaper → Bool)
    (histOk : Bool) (v : Wallpaper) (st : Storage) : Option String × Storage :=
  match stSaveCurrentWallpaper curOk libOk v st with
  | (some e, st1) => (some e, st1)
  | (none, st1) =>
      let st2 :=
        if v.sourceType == "local" && v.source == "local_upload" then
          (stAddToLibrary libOk v st1).2
        else st1
      (none, addToWallpaperHistory histOk v st2)

/-- `wallpaperService.saveCurrentWallpaper`
(src/src/services/wallpaperService.ts lines 676-757): local wallpapers
still carrying a `blob:` path are converted to a base64 payload first
(`blobConv` is the conversion oracle) and saved with the converted path
and thumbnail; everything else is saved as is. -/
def wsSaveCurrentWallpaper (curOk : Bool) (libOk : List Wallpaper → Bool)
    (histOk : Bool) (blobConv : String → String) (w : Wallpaper)
    (st : Storage) : Option String × Storage :=
  if w.sourceType == "local" && strStartsWith w.path "blob:" then
    let b := blobConv w.path
    wsSaveCore curOk libOk histOk { w with path := b, thumbnail := b } st
  else wsSaveCore curOk libOk histOk w st

/-- The redux `addToLibrary` thunk
(src/src/store/slices/wallpaperSlice.ts lines 361-441): deep-copies the
wallpaper, converts a local `blob:` path to a data URL, stamps `addedAt`,
and delegates to the storage service; a quota failure is rephrased for the
user and rethrown. -/
def thunkAddToLibrary (libOk : List Wallpaper → Bool)
    (blobConv : String → String) (now : String) (w : Wallpaper)
    (st : Storage) : Except String (Wallpaper × Storage) :=
  let w1 :=
    if w.sourceType == "local" && !(strStartsWith w.path "data:") then
      (if strStartsWith w.path "blob:" then { w with path := blobConv w.path }
       else w)
    else w
  let w2 := { w1 with addedAt := now }
  match stAddToLibrary libOk w2 st with
  | (none, st1) => .ok (w2, st1)
  | (some e, _) =>
      .error (if strIncludes e "quota" then
          "Storage quota exceeded. Try removing some wallpapers."
        else e)

/-- Thrown by the shuffle thunk when the source is the library and it is
empty (src/src/store/slices/wallpaperSlice.ts line 592). -/
def emptyLibraryMsg : String :=
  "Your library is empty. Please add some wallpapers first or change the refresh source to browse."

/-- Thrown by the shuffle thunk when content-rating filtering empties the
candidate pool (src/src/store/slices/wallpaperSlice.ts line 611). -/
def noMatchMsg : String :=
  "No wallpapers match your NSFW filter. Please adjust your filter settings or add more wallpapers."

/-- Thrown by the shuffle thunk when the browse source yields zero results
(src/src/store/slices/wallpaperSlice.ts line 626). -/
def noBrowseMsg : String :=
  "No wallpapers available from browse collection. Please try again later."

/-- The tag/flag heuristic the shuffle filter applies: some tag contains
`nsfw` (case-insensitively), or the extra `purity` field says `nsfw`
(src/src/store/slices/wallpaperSlice.ts lines 599-601). -/
def isNsfwTagged (w : Wallpaper) : Bool :=
  w.info.tags.any (fun tag => strIncludes (strToLower tag) "nsfw")
    || w.purity == "nsfw"

/-- The in-library candidate pool of the shuffle thunk
(src/src/store/slices/wallpaperSlice.ts lines 590-629): empty library
fails; with the filter not `off`, keep items the heuristic marks unsafe
when the filter is `only` and keep everything when it is `allowed`,
failing when the pool empties. -/
def libraryCandidates (library : List Wallpaper) (nsfwFilter : String) :
    Except String (List Wallpaper) :=
  if library.isEmpty then .error emptyLibraryMsg
  else if nsfwFilter != "off" then
    let filtered := library.filter (fun w =>
      if nsfwFilter == "only" then isNsfwTagged w else true)
    if filtered.isEmpty then .error noMatchMsg else .ok filtered
  else .ok library

/-- One round of the repeat-avoidance do-while loop
(src/src/store/slices/wallpaperSlice.ts lines 631-645).  `k` counts the
picks already taken, so after the pick of round `k` the loop variable
`attempts` equals `k + 1`; `fuel` bounds the recursion and starts at the
pool size, which the loop guard `attempts < maxAttempts` never exceeds. -/
def pickLoopGo (avail : List Wallpaper) (cur : Option Wallpaper)
    (picks : Nat → Nat) : Nat → Nat → Wallpaper
  | k, 0 => avail.getD (picks k) default
  | k, fuel + 1 =>
    let w := avail.getD (picks k) default
    if (match cur with | some c => w.id == c.id | none => false)
        && decide (k + 1 < avail.length) && decide (avail.length > 1) then
      pickLoopGo avail cur picks (k + 1) fuel
    else w

/-- The full repeat-avoidance loop: random picks, retried while the choice
equals the current wallpaper, bounded by `maxAttempts = pool size`. -/
def pickLoop (avail : List Wallpaper) (cur : Option Wallpaper)
    (picks : Nat → Nat) : Wallpaper :=
  pickLoopGo avail cur picks 0 avail.length

/-- The candidate-pool stage of the `shuffleWallpaper` redux thunk
(src/src/store/slices/wallpaperSlice.ts lines 587-629): the library pool
with content-rating filtering, or a page-1 empty-query browse search that
fails on zero results. -/
def shufflePool (now : String) (net : FetchOutcome)
    (refreshSource nsfwFilter : String) (rx : Redux) :
    Except String (List Wallpaper) :=
  if refreshSource == "library" then libraryCandidates rx.library nsfwFilter
  else
    let result := searchWallpapers "" 1
      { nsfw := nsfwFilter == "allowed" || nsfwFilter == "only"
        nsfwMode := nsfwFilter } now net
    if result.wallpapers.isEmpty then .error noBrowseMsg
    else .ok result.wallpapers

/-- The caught re-add of a library-sourced pick that somehow left the
library (src/src/store/slices/wallpaperSlice.ts lines 647-659): a dead
branch in normal operation, since a library-sourced pick comes from the
in-memory library. -/
def shuffleMaybeReAdd (libOk : List Wallpaper → Bool)
    (blobConv : String → String) (now : String) (refreshSource : String)
    (rx : Redux) (st : Storage) (w : Wallpaper) : Storage :=
  if refreshSource == "library" && !(rx.library.any (fun x => x.id == w.id)) then
    (match thunkAddToLibrary libOk blobConv now w st with
     | .ok (_, s) => s
     | .error _ => st)
  else st

/-- The final persist of the chosen wallpaper as Current
(src/src/store/slices/wallpaperSlice.ts lines 661-668): a save failure
rethrows, a success returns the choice. -/
def shuffleCommit (curOk : Bool) (libOk : List Wallpaper → Bool)
    (histOk : Bool) (blobConv : String → String) (w : Wallpaper)
    (st1 : Storage) : Except String Wallpaper × Storage :=
  match wsSaveCurrentWallpaper curOk libOk histOk blobConv w st1 with
  | (some e, st2) => (.error e, st2)
  | (none, st2) => (.ok w, st2)

/-- The selection-and-persist stage of the `shuffleWallpaper` redux thunk
(src/src/store/slices/wallpaperSlice.ts lines 631-668): the bounded
repeat-avoidance pick, the caught re-add, and the persist of the choice
as Current. -/
def shuffleFinish (curOk : Bool) (libOk : List Wallpaper → Bool)
    (histOk : Bool) (blobConv : String → String) (now : String)
    (picks : Nat → Nat) (refreshSource : String) (rx : Redux) (st : Storage)
    (avail : List Wallpaper) : Except String Wallpaper × Storage :=
  let w := pickLoop avail rx.currentWallpaper picks
  shuffleCommit curOk libOk histOk blobConv w
    (shuffleMaybeReAdd libOk blobConv now refreshSource rx st w)

/-- The `shuffleWallpaper` redux thunk
(src/src/store/slices/wallpaperSlice.ts lines 571-677).  Resolves the
effective source and filter (explicit params override settings), builds
the candidate pool, and picks and persists a wallpaper.  Failures are
rethrown; the storage state is returned alongside to expose what was
persisted. -/
def shuffleWallpaper (curOk : Bool) (libOk : List Wallpaper → Bool)
    (histOk : Bool) (blobConv : String → String) (now : String)
    (picks : Nat → Nat) (net : FetchOutcome) (params : ShuffleParams)
    (settings : Settings) (rx : Redux) (st : Storage) :
    Except String Wallpaper × Storage :=
  let refreshSource := params.source.getD settings.refreshSource
  let nsfwFilter := params.nsfwFilter.getD settings.refreshNsfwFilter
  match shufflePool now net refreshSource nsfwFilter rx with
  | .error e => (.error e, st)
  | .ok avail =>
      shuffleFinish curOk libOk histOk blobConv now picks refreshSource rx st avail

/-- One `Map.set` step of the JavaScript `new Map(library.map(item =>
[item.id, item]))` construction: an existing key keeps its position but
takes the new value; a fresh key is appended. -/
def mapInsert (m : List (String × Wallpaper)) (k : String) (v : Wallpaper) :
    List (String × Wallpaper) :=
  if m.any (fun p => p.1 == k) then
    m.map (fun p => if p.1 == k then (k, v) else p)
  else m ++ [(k, v)]

/-- The JavaScript Map built over the library, keyed by id. -/
def jsMapOf (lib : List Wallpaper) : List (String × Wallpaper) :=
  lib.foldl (fun m w => mapInsert m w.id w) []

/-- `Array.from(new Map(library.map(item => [item.id, item])).values())`
(src/src/store/slices/wallpaperSlice.ts lines 336-338): one entry per id,
ordered by first occurrence, each carrying the last value seen for its
key. -/
def dedupById (lib : List Wallpaper) : List Wallpaper :=
  (jsMapOf lib).map (fun p => p.2)

/-- The `fetchLibrary` thunk (src/src/store/slices/wallpaperSlice.ts lines
328-356): read the library, de-duplicate by id, and persist the corrected
list when duplicates were dropped.  `libOk` is the write oracle for the
`wallpaperLibrary` key: `saveLibrary` rethrows a failed
`chrome.storage.local.set` (src/src/services/storageService.ts lines
115-122), and the thunk catch then returns the empty list while the store
keeps the duplicates.  Returns the view together with the stored library
after the call. -/
def fetchLibraryModel (libOk : List Wallpaper → Bool) (lib : List Wallpaper) :
    List Wallpaper × List Wallpaper :=
  let u := dedupById lib
  if u.length != lib.length then
    (if libOk u then (u, u) else ([], lib))
  else (u, lib)

/-- One step of specification-side dedup: append the element unless it is
already present. -/
def dedupStep (ks : List String) (k : String) : List String :=
  if ks.contains k then ks else ks ++ [k]

/-- Specification-side dedup: keep the first occurrence of each element,
in order.  Used to state what `dedupById` preserves. -/
def firstOccur (l : List String) : List String :=
  l.foldl dedupStep []

/-- The slice of the persisted `settings` record the background script
reads; absent fields are `none` (the record may even be `{}`). -/
structure BgSettings where
  refreshSource : Option String := none
  refreshNsfwFilter : Option String := none
deriving DecidableEq, Repr

/-- The `{success, error?}` envelope the background shuffle returns. -/
structure ShuffleOutcome where
  success : Bool
  error : Option String := none
deriving DecidableEq, Repr

/-- The early-exit message of the background shuffle when the persisted
library is empty and the source is the library (src/unnamed/part_019
line 170). -/
def bgEmptyLibraryMsg : String :=
  "Your wallpaper library is empty. Please add wallpapers to your library or change refresh source to Browse."

/-- `performWallpaperShuffle` (src/unnamed/part_019 lines 155-231), run by
the `shuffleWallpaper` alarm listener: when the persisted source is the
library and the persisted library is empty, fail fast; otherwise stamp
`lastShuffleTime` and dispatch the shuffle thunk with the persisted
settings; if that dispatch fails with a library-is-empty error while the
persisted source is the library, retry once with the browse source.
`rxSettings`/`rx` are the redux snapshot of the background store; the two
dispatches get their own pick and fetch oracles. -/
def performWallpaperShuffle (curOk : Bool) (libOk : List Wallpaper → Bool)
    (histOk : Bool) (blobConv : String → String) (now : String)
    (picks1 picks2 : Nat → Nat) (net1 net2 : FetchOutcome)
    (bset : BgSettings) (rxSettings : Settings) (rx : Redux) (st : Storage) :
    ShuffleOutcome × Storage :=
  if bset.refreshSource == some "library" && st.library.isEmpty then
    ({ success := false, error := some bgEmptyLibraryMsg }, st)
  else
    let st1 := { st with lastShuffleTime := some now }
    let params1 : ShuffleParams :=
      { source := some (bset.refreshSource.getD "library")
        nsfwFilter := some (bset.refreshNsfwFilter.getD "off") }
    match shuffleWallpaper curOk libOk histOk blobConv now picks1 net1
        params1 rxSettings rx st1 with
    | (.ok _, st2) => ({ success := true }, st2)
    | (.error e, st2) =>
        if bset.refreshSource == some "library"
            && strIncludes e "library is empty" then
          match shuffleWallpaper curOk libOk histOk blobConv now picks2 net2
              { source := some "browse"
                nsfwFilter := some (bset.refreshNsfwFilter.getD "off") }
              rxSettings rx st2 with
          | (.ok _, st3) => ({ success := true }, st3)
          | (.error e2, st3) => ({ success := false, error := some e2 }, st3)
        else ({ success := false, error := some e }, st2)

/-! Concrete fixtures used by counterexamples and witnesses. -/

/-- The spec scenario library item tagged safe. -/
def filterCexSafe : Wallpaper := { id := "a", info := { tags := ["safe"] } }

/-- The spec scenario library item tagged nsfw. -/
def filterCexNsfw : Wallpaper := { id := "b", info := { tags := ["nsfw"] } }

/-- A remote wallpaper whose `path` is an https URL, not a `data:image`
payload. -/
def quotaCexWallpaper : Wallpaper :=
  { id := "x", path := "https://example.com/full.jpg", thumbnail := "thumb" }

/-- A write oracle under which only the degraded (thumbnail-path) write of
`quotaCexWallpaper` into an empty library fits the quota. -/
def quotaCexWriteOk : List Wallpaper → Bool :=
  fun l => l == [{ quotaCexWallpaper with path := quotaCexWallpaper.thumbnail }]

/-- A local wallpaper whose `data:image` payload write fails but whose
degraded write succeeds. -/
def quotaCexDataWallpaper : Wallpaper :=
  { id := "d", path := "data:image/png;base64,AAAA", thumbnail := "data:thumb" }

/-- A write oracle under which only the degraded write of
`quotaCexDataWallpaper` into an empty library fits the quota. -/
def quotaCexDataWriteOk : List Wallpaper → Bool :=
  fun l => l == [{ quotaCexDataWallpaper with path := quotaCexDataWallpaper.thumbnail }]

/-- A local wallpaper that is not a user upload (its `source` is not the
`local_upload` sentinel). -/
def localCexWallpaper : Wallpaper :=
  { id := "z", sourceType := "local", source := "imported" }

/-- A single provider search result. -/
def browseCexItem : ProviderItem :=
  { id := "r1", path := "https://img.example/r1.jpg" }

/-! Theorems. -/

/-- C10: for every filter input, the categories bit-string sent to the
remote provider has the anime bit (position 2 of [general, anime, people])
set to 1, and an all-zero category selection defaults to the string 010,
so no outgoing query excludes the anime category. -/
theorem C10_categories_always_anime (cats : List String) :
    (formatCategoriesString cats).toList.get? 1 = some '1'
    ∧ (cats.contains "general" = false → cats.contains "anime" = false →
        cats.contains "people" = false → formatCategoriesString cats = "010") := by
  constructor
  · cases hg : cats.contains "general" <;>
      cases ha : cats.contains "anime" <;>
        cases hp : cats.contains "people" <;>
          simp only [formatCategoriesString, hg, ha, hp] <;> decide
  · intro h1 h2 h3
    simp only [formatCategoriesString, h1, h2, h3]
    decide

/-- C10 witness: the all-zero selection concretely yields 010, whose
anime bit is set. -/
theorem C10_witness :
    formatCategoriesString [] = "010"
    ∧ (formatCategoriesString []).toList.get? 1 = some '1' :=
  ⟨(C10_categories_always_anime []).2 rfl rfl rfl,
   (C10_categories_always_anime []).1⟩

/-- C6: for every query, page and filter input, a remote search whose
fetch fails (network failure, client-enforced timeout, non-OK HTTP
status, malformed body) is normalized into a returned result whose
wallpapers list is empty and whose total is 0; the function never throws
past its boundary (it is total by construction). -/
theorem C6_search_never_throws (query : String) (page : Nat)
    (f : WallpaperFilters) (now : String) (net : FetchOutcome)
    (hfail : ∀ d m, net ≠ FetchOutcome.ok d m) :
    (searchWallpapers query page f now net).wallpapers = []
    ∧ (searchWallpapers query page f now net).total = 0 := by
  cases net with
  | ok d m => exact absurd rfl (hfail d m)
  | timeout => exact ⟨rfl, rfl⟩
  | netError m => exact ⟨rfl, rfl⟩
  | httpError s t => exact ⟨rfl, rfl⟩
  | malformed => exact ⟨rfl, rfl⟩

/-- C6 witness: a concrete timed-out search returns the empty result with
total 0. -/
theorem C6_witness :
    (searchWallpapers "anime" 1 {} "t0" FetchOutcome.timeout).wallpapers = []
    ∧ (searchWallpapers "anime" 1 {} "t0" FetchOutcome.timeout).total = 0 :=
  C6_search_never_throws "anime" 1 {} "t0" FetchOutcome.timeout
    (fun _ _ h => FetchOutcome.noConfusion h)

/-- C9: on the library `[a tagged safe, b tagged nsfw]`, the shuffle
candidate pool under the `only` filter is exactly `[b]`, under `off` it is
both items (no filtering), and whenever `only` filtering empties the
candidate set the operation fails with the no-matching-content error. -/
theorem C9_content_filter :
    libraryCandidates [filterCexSafe, filterCexNsfw] "only" = .ok [filterCexNsfw]
    ∧ libraryCandidates [filterCexSafe, filterCexNsfw] "off"
        = .ok [filterCexSafe, filterCexNsfw]
    ∧ ∀ lib : List Wallpaper, lib ≠ [] → lib.filter isNsfwTagged = [] →
        libraryCandidates lib "only" = .error noMatchMsg := by
  refine ⟨rfl, rfl, fun lib hne hfil => ?_⟩
  have hempty : lib.isEmpty = false := by
    cases lib with
    | nil => exact absurd rfl hne
    | cons x xs => rfl
  simp only [libraryCandidates, hempty, Bool.false_eq_true, if_false]
  have hpred : (lib.filter fun w =>
      if ("only" == "only") = true then isNsfwTagged w else true) = [] := by
    simpa using hfil
  simp [hpred, hfil]

/-- C9 witness: a nonempty all-safe library under the `only` filter
concretely fails with the no-matching-content error. -/
theorem C9_witness :
    libraryCandidates [filterCexSafe] "only" = .error noMatchMsg :=
  C9_content_filter.2.2 [filterCexSafe] (List.cons_ne_nil _ _) rfl

/-- C3 counterexample: a wallpaper whose `path` is an https URL (not a
`data:image` payload) hits the quota on its library write and the
operation surfaces the quota error immediately, performing no degradation
step, even though the degraded (thumbnail-path) write would have
succeeded.  This refutes the claim that every quota-hit write performs
exactly one degradation step and errors only if the retry also fails. -/
theorem C3_counterexample :
    bgAddToLibrary quotaCexWriteOk quotaCexWallpaper [] = .error quotaUserMsg
    ∧ quotaCexWriteOk
        [{ quotaCexWallpaper with path := quotaCexWallpaper.thumbnail }] = true
    ∧ quotaCexWallpaper.thumbnail = "thumb" :=
  ⟨rfl, rfl, rfl⟩

/-- C3 (amended): on a quota failure, the degradation step (replace the
path with the existing thumbnail, retry the write once, succeed if the
retry fits, surface the quota error only if the retry fails too) runs
only when the path is a nonempty `data:image` payload and a thumbnail is
present; otherwise the quota error is surfaced immediately with no
retry. -/
theorem C3_quota_degrade (writeOk : List Wallpaper → Bool) (w : Wallpaper)
    (lib : List Wallpaper)
    (hnew : lib.any (fun x => x.id == w.id) = false)
    (hfull : writeOk (w :: lib) = false) :
    ((w.path != "" && strStartsWith w.path "data:image") = true →
      (w.thumbnail != "") = true →
      bgAddToLibrary writeOk w lib =
        (if writeOk ({ w with path := w.thumbnail } :: lib) then
           .ok ({ w with path := w.thumbnail } :: lib)
         else .error quotaUserMsg))
    ∧ ((w.path != "" && strStartsWith w.path "data:image") = true →
        (w.thumbnail != "") = false →
        bgAddToLibrary writeOk w lib = .error quotaUserMsg)
    ∧ ((w.path != "" && strStartsWith w.path "data:image") = false →
        bgAddToLibrary writeOk w lib = .error quotaUserMsg) := by
  refine ⟨fun hdata hthumb => ?_, fun hdata hthumb => ?_, fun hdata => ?_⟩
  · simp only [bgAddToLibrary, hnew, hfull, hdata, hthumb, Bool.false_eq_true,
      if_false, if_true]
  · simp only [bgAddToLibrary, hnew, hfull, hdata, hthumb, Bool.false_eq_true,
      if_false, if_true]
  · simp only [bgAddToLibrary, hnew, hfull, hdata, Bool.false_eq_true,
      if_false, if_true]

/-- C3 witness: a `data:image` wallpaper with a thumbnail concretely
degrades and the retried write succeeds. -/
theorem C3_witness :
    bgAddToLibrary quotaCexDataWriteOk quotaCexDataWallpaper [] =
      .ok [{ quotaCexDataWallpaper with path := quotaCexDataWallpaper.thumbnail }] := by
  have h := (C3_quota_degrade quotaCexDataWriteOk quotaCexDataWallpaper []
    rfl rfl).1 rfl rfl
  simpa using h

/-- C4: adding a wallpaper whose id is already present leaves the stored
library unchanged (no overwrite, no duplicate), and — under the library
invariant of at most one entry per id, and with the write fitting the
quota — the sequence add(w); add(w) leaves exactly one entry with id
`w.id`.  Proved for both storage-service variants (foreground
`storageService.ts` and background src/unnamed/part_009). -/
theorem idMatch_any_pos {l : List Wallpaper} {i : String}
    (h : l.any (fun x => x.id == i) = true) : 0 < countId l i := by
  rcases List.any_eq_true.mp h with ⟨x, hx, hxid⟩
  exact List.countP_pos_iff.mpr ⟨x, hx, hxid⟩

theorem idMatch_not_any_zero {l : List Wallpaper} {i : String}
    (h : ¬l.any (fun x => x.id == i) = true) : countId l i = 0 := by
  rw [countId, List.countP_eq_zero]
  intro a ha
  exact fun hbeq => h (List.any_eq_true.mpr ⟨a, ha, hbeq⟩)

theorem countId_cons_self (w : Wallpaper) (l : List Wallpaper) :
    countId (w :: l) w.id = countId l w.id + 1 := by
  simp [countId, List.countP_cons]

theorem any_cons_self_id (w : Wallpaper) (l : List Wallpaper) :
    (w :: l).any (fun x => x.id == w.id) = true :=
  List.any_eq_true.mpr ⟨w, List.mem_cons_self _ _, beq_self_eq_true _⟩

theorem C4_idempotent_add (w : Wallpaper) (st : Storage)
    (libOk writeOk : List Wallpaper → Bool) (lib : List Wallpaper) :
    (st.library.any (fun x => x.id == w.id) = true →
      stAddToLibrary libOk w st = (none, st))
    ∧ ((∀ l, libOk l = true) → countId st.library w.id ≤ 1 →
        countId ((stAddToLibrary libOk w
          (stAddToLibrary libOk w st).2).2).library w.id = 1)
    ∧ (lib.any (fun x => x.id == w.id) = true →
        bgAddToLibrary writeOk w lib = .ok lib)
    ∧ (writeOk (w :: lib) = true → countId lib w.id ≤ 1 →
        ∃ lib1 lib2, bgAddToLibrary writeOk w lib = .ok lib1 ∧
          bgAddToLibrary writeOk w lib1 = .ok lib2 ∧
          countId lib2 w.id = 1) := by
  refine ⟨fun h => ?_, fun hok hle => ?_, fun h => ?_, fun hw hle => ?_⟩
  · simp only [stAddToLibrary, h, if_true]
  · by_cases h : st.library.any (fun x => x.id == w.id) = true
    · have h2 : (stAddToLibrary libOk w st).2 = st := by
        simp only [stAddToLibrary, h, if_true]
      simp only [h2]
      have hpos := idMatch_any_pos h
      omega
    · have h0 := idMatch_not_any_zero h
      have hfalse : st.library.any (fun x => x.id == w.id) = false :=
        Bool.not_eq_true _ |>.mp h
      have h2 : (stAddToLibrary libOk w st).2 =
          { st with library := w :: st.library } := by
        simp only [stAddToLibrary, hfalse, Bool.false_eq_true, if_false,
          hok, if_true]
      have h3 : (stAddToLibrary libOk w
          { st with library := w :: st.library }).2 =
          { st with library := w :: st.library } := by
        simp only [stAddToLibrary, any_cons_self_id, if_true]
      rw [h2, h3]
      have := countId_cons_self w st.library
      simp only []
      omega
  · simp only [bgAddToLibrary, h, if_true]
  · by_cases h : lib.any (fun x => x.id == w.id) = true
    · refine ⟨lib, lib, ?_, ?_, ?_⟩
      · simp only [bgAddToLibrary, h, if_true]
      · simp only [bgAddToLibrary, h, if_true]
      · have hpos := idMatch_any_pos h
        omega
    · have h0 := idMatch_not_any_zero h
      have hfalse : lib.any (fun x => x.id == w.id) = false :=
        Bool.not_eq_true _ |>.mp h
      refine ⟨w :: lib, w :: lib, ?_, ?_, ?_⟩
      · simp only [bgAddToLibrary, hfalse, Bool.false_eq_true, if_false,
          hw, if_true]
      · simp only [bgAddToLibrary, any_cons_self_id, if_true]
      · have := countId_cons_self w lib
        omega

/-- C4 witness: concrete add-twice runs for both variants, with every
hypothesis discharged at a concrete input. -/
theorem C4_witness :
    stAddToLibrary (fun _ => true) filterCexSafe { library := [filterCexSafe] }
      = (none, { library := [filterCexSafe] })
    ∧ countId ((stAddToLibrary (fun _ => true) filterCexSafe
        (stAddToLibrary (fun _ => true) filterCexSafe
          { library := [] }).2).2).library filterCexSafe.id = 1
    ∧ bgAddToLibrary (fun _ => true) filterCexSafe [filterCexSafe]
        = .ok [filterCexSafe]
    ∧ ∃ lib1 lib2,
        bgAddToLibrary (fun _ => true) filterCexSafe [] = .ok lib1 ∧
        bgAddToLibrary (fun _ => true) filterCexSafe lib1 = .ok lib2 ∧
        countId lib2 filterCexSafe.id = 1 :=
  ⟨(C4_idempotent_add filterCexSafe { library := [filterCexSafe] }
      (fun _ => true) (fun _ => true) [filterCexSafe]).1 (by decide),
   (C4_idempotent_add filterCexSafe { library := [] }
      (fun _ => true) (fun _ => true) []).2.1 (fun _ => rfl) (by decide),
   (C4_idempotent_add filterCexSafe { library := [] }
      (fun _ => true) (fun _ => true) [filterCexSafe]).2.2.1 (by decide),
   (C4_idempotent_add filterCexSafe { library := [] }
      (fun _ => true) (fun _ => true) []).2.2.2 rfl (by decide)⟩

/-- C5 counterexample: the foreground storage-service `setCurrent`
(src/src/services/storageService.ts lines 60-72) auto-adds a local
wallpaper whose `source` is not the `local_upload` sentinel, so setCurrent
does not leave the library unchanged for every non-upload wallpaper,
refuting the only-under-this-condition half of the claim. -/
theorem C5_counterexample :
    (stSaveCurrentWallpaper true (fun _ => true) localCexWallpaper {}).2.library
      = [localCexWallpaper]
    ∧ localCexWallpaper.sourceType = "local"
    ∧ localCexWallpaper.source = "imported" :=
  ⟨rfl, rfl, rfl⟩

/-- C5 (amended): after a successful setCurrent of a local upload, an
entry with its id exists in the library (both variants).  The background
variant (src/unnamed/part_009) auto-adds exactly on the local-upload
condition and leaves the library unchanged otherwise; the foreground
variant (src/src/services/storageService.ts) auto-adds whenever
`sourceType` is local — regardless of `source` — and leaves the library
unchanged only for non-local wallpapers. -/
theorem C5_set_current_auto_add (curOk : Bool)
    (libOk : List Wallpaper → Bool) (w : Wallpaper) (st : Storage) :
    (w.sourceType = "local" → w.source = "local_upload" →
      libOk (w :: st.library) = true →
      (bgSaveCurrentWallpaper true libOk w st).2.current = some w
      ∧ (bgSaveCurrentWallpaper true libOk w st).2.library.any
          (fun x => x.id == w.id) = true)
    ∧ (¬(w.sourceType = "local" ∧ w.source = "local_upload") →
      (bgSaveCurrentWallpaper curOk libOk w st).2.library = st.library)
    ∧ (w.sourceType = "local" → (∀ l, libOk l = true) →
      (stSaveCurrentWallpaper true libOk w st).2.library.any
        (fun x => x.id == w.id) = true)
    ∧ (w.sourceType ≠ "local" →
      (stSaveCurrentWallpaper curOk libOk w st).2.library = st.library) := by
  refine ⟨fun hl hs hok => ?_, fun hn => ?_, fun hl hok => ?_, fun hn => ?_⟩
  · have hguard : (w.sourceType == "local" && w.source == "local_upload") = true := by
      simp [hl, hs]
    by_cases hany : st.library.any (fun x => x.id == w.id) = true
    · have hadd : bgAddToLibrary libOk w st.library = .ok st.library := by
        simp only [bgAddToLibrary, hany, if_true]
      constructor
      · simp only [bgSaveCurrentWallpaper, if_true, hguard, hadd]
      · simp only [bgSaveCurrentWallpaper, if_true, hguard, hadd]
        exact hany
    · have hfalse : st.library.any (fun x => x.id == w.id) = false :=
        Bool.not_eq_true _ |>.mp hany
      have hadd : bgAddToLibrary libOk w st.library = .ok (w :: st.library) := by
        simp only [bgAddToLibrary, hfalse, Bool.false_eq_true, if_false,
          hok, if_true]
      constructor
      · simp only [bgSaveCurrentWallpaper, if_true, hguard, hadd]
      · simp only [bgSaveCurrentWallpaper, if_true, hguard, hadd]
        exact any_cons_self_id w st.library
  · have hguard : (w.sourceType == "local" && w.source == "local_upload") = false := by
      rcases Decidable.not_and_iff_or_not.mp hn with h | h <;>
        simp [Bool.and_eq_true, beq_iff_eq, h]
    cases curOk with
    | false => simp only [bgSaveCurrentWallpaper, Bool.false_eq_true, if_false]
    | true =>
        simp only [bgSaveCurrentWallpaper, if_true, hguard, Bool.false_eq_true,
          if_false]
  · have hguard : (w.sourceType == "local") = true := by simp [hl]
    by_cases hany : st.library.any (fun x => x.id == w.id) = true
    · have hadd : stAddToLibrary libOk w { st with current := some w } =
          (none, { st with current := some w }) := by
        simp only [stAddToLibrary, hany, if_true]
      simp only [stSaveCurrentWallpaper, if_true, hguard, hadd]
      exact hany
    · have hfalse : st.library.any (fun x => x.id == w.id) = false :=
        Bool.not_eq_true _ |>.mp hany
      have hadd : stAddToLibrary libOk w { st with current := some w } =
          (none, { st with current := some w, library := w :: st.library }) := by
        simp only [stAddToLibrary, hfalse, Bool.false_eq_true, if_false,
          hok, if_true]
      simp only [stSaveCurrentWallpaper, if_true, hguard, hadd]
      exact any_cons_self_id w st.library
  · have hguard : (w.sourceType == "local") = false := by
      simp [beq_iff_eq, hn]
    cases curOk with
    | false => simp only [stSaveCurrentWallpaper, Bool.false_eq_true, if_false]
    | true =>
        simp only [stSaveCurrentWallpaper, if_true, hguard, Bool.false_eq_true,
          if_false]

/-- C5 witness: concrete applications of the amended setCurrent theorem —
a genuine local upload is auto-added by both variants, and a remote
wallpaper leaves the library of both variants unchanged. -/
theorem C5_witness :
    ((bgSaveCurrentWallpaper true (fun _ => true)
        { id := "u", sourceType := "local", source := "local_upload" } {}).2.current
      = some { id := "u", sourceType := "local", source := "local_upload" }
    ∧ (bgSaveCurrentWallpaper true (fun _ => true)
        { id := "u", sourceType := "local", source := "local_upload" } {}).2.library.any
        (fun x => x.id == "u") = true)
    ∧ (bgSaveCurrentWallpaper true (fun _ => true) filterCexSafe {}).2.library = []
    ∧ (stSaveCurrentWallpaper true (fun _ => true)
        { id := "u", sourceType := "local", source := "local_upload" } {}).2.library.any
        (fun x => x.id == "u") = true
    ∧ (stSaveCurrentWallpaper true (fun _ => true) filterCexSafe {}).2.library = [] :=
  ⟨(C5_set_current_auto_add true (fun _ => true)
      { id := "u", sourceType := "local", source := "local_upload" } {}).1 rfl rfl rfl,
   (C5_set_current_auto_add true (fun _ => true) filterCexSafe {}).2.1
      (fun h => absurd h.1 (by decide)),
   (C5_set_current_auto_add true (fun _ => true)
      { id := "u", sourceType := "local", source := "local_upload" } {}).2.2.1
      rfl (fun _ => rfl),
   (C5_set_current_auto_add true (fun _ => true) filterCexSafe {}).2.2.2
      (by decide)⟩

/-- C1 counterexample: on a library of two wallpapers with distinct ids
and Current equal to the first, the pick sequence that always draws index
0 makes the library shuffle return a wallpaper with the same id as
Current — the bounded retry gives up after pool-size attempts, so the
claimed for-every-sequence no-repeat guarantee fails. -/
theorem C1_counterexample :
    (shuffleWallpaper true (fun _ => true) true (fun s => s) "t0" (fun _ => 0)
      FetchOutcome.timeout { source := some "library", nsfwFilter := some "off" }
      {} { library := [filterCexSafe, filterCexNsfw],
           currentWallpaper := some filterCexSafe } {}).1
      = .ok filterCexSafe
    ∧ filterCexSafe.id ≠ filterCexNsfw.id :=
  ⟨rfl, by decide⟩

/-- C2 counterexample: with the persisted source set to `library` and the
persisted library empty, the scheduled shuffle fails fast with the
empty-library error and leaves Current unset — it never retries with the
browse source even though the remote provider would return one result
(the same oracle makes a direct browse search return one wallpaper). -/
theorem C2_counterexample :
    performWallpaperShuffle true (fun _ => true) true (fun s => s) "t0"
      (fun _ => 0) (fun _ => 0)
      (FetchOutcome.ok [browseCexItem] {}) (FetchOutcome.ok [browseCexItem] {})
      { refreshSource := some "library", refreshNsfwFilter := some "off" }
      {} {} {}
      = ({ success := false, error := some bgEmptyLibraryMsg }, {})
    ∧ (searchWallpapers "" 1 { nsfw := false, nsfwMode := "off" } "t0"
        (FetchOutcome.ok [browseCexItem] {})).wallpapers.length = 1 :=
  ⟨rfl, rfl⟩

theorem getD_mem_of_lt {l : List Wallpaper} {i : Nat} (h : i < l.length)
    (d : Wallpaper) : l.getD i d ∈ l := by
  rw [List.getD_eq_getElem?_getD, List.getElem?_eq_getElem h, Option.getD_some]
  exact List.getElem_mem h

theorem pickLoopGo_mem (avail : List Wallpaper) (cur : Option Wallpaper)
    (picks : Nat → Nat) (hp : ∀ k, picks k < avail.length) :
    ∀ fuel k, pickLoopGo avail cur picks k fuel ∈ avail := by
  intro fuel
  induction fuel with
  | zero => intro k; exact getD_mem_of_lt (hp k) _
  | succ f ih =>
      intro k
      simp only [pickLoopGo]
      split
      · exact ih (k + 1)
      · exact getD_mem_of_lt (hp k) _

theorem pickLoop_mem (avail : List Wallpaper) (cur : Option Wallpaper)
    (picks : Nat → Nat) (hp : ∀ k, picks k < avail.length) :
    pickLoop avail cur picks ∈ avail :=
  pickLoopGo_mem avail cur picks hp avail.length 0

theorem pickLoopGo_ne_iff (avail : List Wallpaper) (c : Wallpaper)
    (picks : Nat → Nat) :
    ∀ fuel k, k + fuel = avail.length → k < avail.length →
      ((pickLoopGo avail (some c) picks k fuel).id ≠ c.id ↔
        ∃ j, k ≤ j ∧ j < avail.length ∧
          (avail.getD (picks j) default).id ≠ c.id) := by
  intro fuel
  induction fuel with
  | zero => intro k hk hlt; omega
  | succ f ih =>
      intro k hk hlt
      simp only [pickLoopGo]
      by_cases hw : (avail.getD (picks k) default).id = c.id
      · by_cases hk1 : k + 1 < avail.length
        · have hlen : avail.length > 1 := by omega
          have hguard : (((avail.getD (picks k) default).id == c.id)
              && decide (k + 1 < avail.length)
              && decide (avail.length > 1)) = true := by
            rw [hw, beq_self_eq_true, decide_eq_true hk1, decide_eq_true hlen]
            rfl
          rw [if_pos hguard, ih (k + 1) (by omega) hk1]
          constructor
          · rintro ⟨j, hj1, hj2, hj3⟩
            exact ⟨j, by omega, hj2, hj3⟩
          · rintro ⟨j, hj1, hj2, hj3⟩
            rcases Nat.eq_or_lt_of_le hj1 with rfl | hlt'
            · exact (hj3 hw).elim
            · exact ⟨j, by omega, hj2, hj3⟩
        · have hguard : (((avail.getD (picks k) default).id == c.id)
              && decide (k + 1 < avail.length)
              && decide (avail.length > 1)) = false := by
            rw [decide_eq_false hk1, Bool.and_false, Bool.false_and]
          rw [if_neg (ne_true_of_eq_false hguard)]
          constructor
          · intro h; exact (h hw).elim
          · rintro ⟨j, hj1, hj2, hj3⟩
            have hjk : j = k := by omega
            subst hjk
            exact (hj3 hw).elim
      · have hguard : (((avail.getD (picks k) default).id == c.id)
            && decide (k + 1 < avail.length)
            && decide (avail.length > 1)) = false := by
          rw [beq_eq_false_iff_ne.mpr hw, Bool.false_and, Bool.false_and]
        rw [if_neg (ne_true_of_eq_false hguard)]
        constructor
        · intro _; exact ⟨k, Nat.le_refl k, hlt, hw⟩
        · intro _; exact hw

theorem pickLoop_ne_iff (avail : List Wallpaper) (c : Wallpaper)
    (picks : Nat → Nat) (hne : avail ≠ []) :
    ((pickLoop avail (some c) picks).id ≠ c.id ↔
      ∃ j, j < avail.length ∧ (avail.getD (picks j) default).id ≠ c.id) := by
  have hlen : 0 < avail.length := List.length_pos.mpr hne
  have h := pickLoopGo_ne_iff avail c picks avail.length 0 (by omega) hlen
  rw [pickLoop, h]
  constructor
  · rintro ⟨j, _, hj2, hj3⟩; exact ⟨j, hj2, hj3⟩
  · rintro ⟨j, hj2, hj3⟩; exact ⟨j, Nat.zero_le j, hj2, hj3⟩

theorem stAddToLibrary_snd_current (libOk : List Wallpaper → Bool)
    (w : Wallpaper) (st : Storage) :
    (stAddToLibrary libOk w st).2.current = st.current := by
  unfold stAddToLibrary
  split
  · rfl
  · split <;> rfl

theorem stAddToLibrary_fst_none (libOk : List Wallpaper → Bool)
    (w : Wallpaper) (st : Storage) (hlibOk : ∀ l, libOk l = true) :
    (stAddToLibrary libOk w st).1 = none := by
  unfold stAddToLibrary
  split
  · rfl
  · rw [if_pos (hlibOk _)]

theorem stSave_true_fst (libOk : List Wallpaper → Bool) (w : Wallpaper)
    (st : Storage) (hlibOk : ∀ l, libOk l = true) :
    (stSaveCurrentWallpaper true libOk w st).1 = none := by
  unfold stSaveCurrentWallpaper
  rw [if_pos rfl]
  split
  · exact stAddToLibrary_fst_none libOk w _ hlibOk
  · rfl

theorem stSave_true_snd_current (libOk : List Wallpaper → Bool)
    (w : Wallpaper) (st : Storage) :
    (stSaveCurrentWallpaper true libOk w st).2.current = some w := by
  unfold stSaveCurrentWallpaper
  rw [if_pos rfl]
  split
  · rw [stAddToLibrary_snd_current]
  · rfl

theorem addToWallpaperHistory_current (histOk : Bool) (w : Wallpaper)
    (st : Storage) : (addToWallpaperHistory histOk w st).current = st.current := by
  unfold addToWallpaperHistory
  split <;> rfl

theorem wsSaveCore_true_fst (libOk : List Wallpaper → Bool) (histOk : Bool)
    (v : Wallpaper) (st : Storage) (hlibOk : ∀ l, libOk l = true) :
    (wsSaveCore true libOk histOk v st).1 = none := by
  have h := stSave_true_fst libOk v st hlibOk
  rcases hres : stSaveCurrentWallpaper true libOk v st with ⟨oe, st1⟩
  rw [hres] at h
  cases oe with
  | some e => exact absurd h (by simp)
  | none => simp only [wsSaveCore, hres]

theorem wsSaveCore_true_snd_current (libOk : List Wallpaper → Bool)
    (histOk : Bool) (v : Wallpaper) (st : Storage)
    (hlibOk : ∀ l, libOk l = true) :
    (wsSaveCore true libOk histOk v st).2.current = some v := by
  have h := stSave_true_fst libOk v st hlibOk
  have h2 := stSave_true_snd_current libOk v st
  rcases hres : stSaveCurrentWallpaper true libOk v st with ⟨oe, st1⟩
  rw [hres] at h h2
  cases oe with
  | some e => exact absurd h (by simp)
  | none =>
      simp only [wsSaveCore, hres]
      rw [addToWallpaperHistory_current]
      split
      · rw [stAddToLibrary_snd_current]; exact h2
      · exact h2

theorem wsSave_true_fst (libOk : List Wallpaper → Bool) (histOk : Bool)
    (blobConv : String → String) (w : Wallpaper) (st : Storage)
    (hlibOk : ∀ l, libOk l = true) :
    (wsSaveCurrentWallpaper true libOk histOk blobConv w st).1 = none := by
  unfold wsSaveCurrentWallpaper
  split
  · exact wsSaveCore_true_fst libOk histOk _ st hlibOk
  · exact wsSaveCore_true_fst libOk histOk _ st hlibOk

/-- C1 (amended): for a library shuffle with a current wallpaper `c` and a
nonempty library, the result is the bounded-retry pick, and its id differs
from `c.id` exactly when some pick among the first pool-size draws lands
on an item with a different id; a draw sequence that always hits `c`
legitimately returns `c` even for pools of two or more distinct items. -/
theorem C1_shuffle_no_repeat (libOk : List Wallpaper → Bool) (histOk : Bool)
    (blobConv : String → String) (now : String) (picks : Nat → Nat)
    (net : FetchOutcome) (settings : Settings) (rx : Redux) (st : Storage)
    (c : Wallpaper) (hcur : rx.currentWallpaper = some c)
    (hne : rx.library ≠ []) (hpicks : ∀ k, picks k < rx.library.length)
    (hlibOk : ∀ l, libOk l = true) :
    ∃ w, (shuffleWallpaper true libOk histOk blobConv now picks net
        { source := some "library", nsfwFilter := some "off" }
        settings rx st).1 = .ok w
      ∧ (w.id ≠ c.id ↔ ∃ j, j < rx.library.length ∧
          (rx.library.getD (picks j) default).id ≠ c.id) := by
  have hempty : rx.library.isEmpty = false := by
    cases h : rx.library with
    | nil => exact absurd h hne
    | cons a l => rfl
  have hpool : shufflePool now net "library" "off" rx = .ok rx.library := by
    simp [shufflePool, libraryCandidates, hempty]
  refine ⟨pickLoop rx.library rx.currentWallpaper picks, ?_, ?_⟩
  · have hmem : pickLoop rx.library rx.currentWallpaper picks ∈ rx.library :=
      pickLoop_mem rx.library rx.currentWallpaper picks hpicks
    have hany : rx.library.any
        (fun x => x.id == (pickLoop rx.library rx.currentWallpaper picks).id)
        = true :=
      List.any_eq_true.mpr ⟨_, hmem, beq_self_eq_true _⟩
    have hstep : shuffleMaybeReAdd libOk blobConv now "library" rx st
        (pickLoop rx.library rx.currentWallpaper picks) = st := by
      unfold shuffleMaybeReAdd
      rw [hany, Bool.not_true, Bool.and_false]
      simp only [Bool.false_eq_true, if_false]
    simp only [shuffleWallpaper, Option.getD_some, hpool, shuffleFinish, hstep]
    have hws := wsSave_true_fst libOk histOk blobConv
      (pickLoop rx.library rx.currentWallpaper picks) st hlibOk
    unfold shuffleCommit
    rcases hres : wsSaveCurrentWallpaper true libOk histOk blobConv
        (pickLoop rx.library rx.currentWallpaper picks) st with ⟨oe, st2⟩
    rw [hres] at hws
    have hoe : oe = none := hws
    subst hoe
    rfl
  · rw [hcur]
    exact pickLoop_ne_iff rx.library c picks hne

/-- C1 witness: on the two-item library with current `a`, the draw
sequence 0,1,0,1,... concretely escapes the repeat within the bound. -/
theorem C1_witness :
    ∃ w, (shuffleWallpaper true (fun _ => true) true (fun s => s) "t0"
        (fun k => k % 2) FetchOutcome.timeout
        { source := some "library", nsfwFilter := some "off" }
        {} { library := [filterCexSafe, filterCexNsfw],
             currentWallpaper := some filterCexSafe } {}).1 = .ok w
      ∧ (w.id ≠ filterCexSafe.id ↔ ∃ j,
          j < ([filterCexSafe, filterCexNsfw] : List Wallpaper).length ∧
          (([filterCexSafe, filterCexNsfw] : List Wallpaper).getD
            (j % 2) default).id ≠ filterCexSafe.id) :=
  C1_shuffle_no_repeat (fun _ => true) true (fun s => s) "t0" (fun k => k % 2)
    FetchOutcome.timeout {}
    { library := [filterCexSafe, filterCexNsfw],
      currentWallpaper := some filterCexSafe } {} filterCexSafe
    rfl (List.cons_ne_nil _ _) (fun k => Nat.mod_lt _ (by decide))
    (fun _ => rfl)

theorem stAdd_fst_err (libOk : List Wallpaper → Bool) (w : Wallpaper)
    (st : Storage) (e : String)
    (h : (stAddToLibrary libOk w st).1 = some e) : e = chromeQuotaMsg := by
  unfold stAddToLibrary at h
  split at h
  · exact Option.noConfusion h
  · split at h
    · exact Option.noConfusion h
    · have h2 : (some chromeQuotaMsg : Option String) = some e := h
      exact (Option.some.inj h2).symm

theorem stSave_fst_err (curOk : Bool) (libOk : List Wallpaper → Bool)
    (w : Wallpaper) (st : Storage) (e : String)
    (h : (stSaveCurrentWallpaper curOk libOk w st).1 = some e) :
    e = chromeQuotaMsg := by
  unfold stSaveCurrentWallpaper at h
  split at h
  · split at h
    · exact stAdd_fst_err _ _ _ _ h
    · exact Option.noConfusion h
  · have h2 : (some chromeQuotaMsg : Option String) = some e := h
    exact (Option.some.inj h2).symm

theorem wsSaveCore_fst_err (curOk : Bool) (libOk : List Wallpaper → Bool)
    (histOk : Bool) (v : Wallpaper) (st : Storage) (e : String)
    (h : (wsSaveCore curOk libOk histOk v st).1 = some e) :
    e = chromeQuotaMsg := by
  unfold wsSaveCore at h
  rcases hres : stSaveCurrentWallpaper curOk libOk v st with ⟨oe, st1⟩
  rw [hres] at h
  cases oe with
  | some e2 =>
      have h2 : (some e2 : Option String) = some e := h
      rw [← Option.some.inj h2]
      exact stSave_fst_err curOk libOk v st e2 (by rw [hres])
  | none =>
      have h2 : (none : Option String) = some e := h
      exact Option.noConfusion h2

theorem wsSave_fst_err (curOk : Bool) (libOk : List Wallpaper → Bool)
    (histOk : Bool) (blobConv : String → String) (w : Wallpaper)
    (st : Storage) (e : String)
    (h : (wsSaveCurrentWallpaper curOk libOk histOk blobConv w st).1 = some e) :
    e = chromeQuotaMsg := by
  unfold wsSaveCurrentWallpaper at h
  split at h
  · exact wsSaveCore_fst_err _ _ _ _ _ _ h
  · exact wsSaveCore_fst_err _ _ _ _ _ _ h

theorem shuffleCommit_fst_err (curOk : Bool) (libOk : List Wallpaper → Bool)
    (histOk : Bool) (blobConv : String → String) (w : Wallpaper)
    (st1 : Storage) (e : String)
    (h : (shuffleCommit curOk libOk histOk blobConv w st1).1 = .error e) :
    e = chromeQuotaMsg := by
  unfold shuffleCommit at h
  rcases hres : wsSaveCurrentWallpaper curOk libOk histOk blobConv w st1
    with ⟨oe, st2⟩
  rw [hres] at h
  cases oe with
  | some e2 =>
      have h2 : (Except.error e2 : Except String Wallpaper) = Except.error e := h
      have he : e2 = e := by injection h2
      rw [← he]
      exact wsSave_fst_err curOk libOk histOk blobConv w st1 e2 (by rw [hres])
  | none =>
      have h2 : (Except.ok w : Except String Wallpaper) = Except.error e := h
      exact Except.noConfusion h2

/-- C8: a shuffle invocation that fails with one of the policy-level
errors (empty library, no matching content after filtering, no browse
results — which is also what an absorbed provider failure produces)
leaves the whole persisted storage, and in particular the Current
Wallpaper, unchanged: the stored current is overwritten only after a
candidate was selected. -/
theorem C8_failed_shuffle_keeps_current (curOk : Bool)
    (libOk : List Wallpaper → Bool) (histOk : Bool)
    (blobConv : String → String) (now : String) (picks : Nat → Nat)
    (net : FetchOutcome) (params : ShuffleParams) (settings : Settings)
    (rx : Redux) (st : Storage) (e : String)
    (herr : (shuffleWallpaper curOk libOk histOk blobConv now picks net
        params settings rx st).1 = .error e)
    (hmsg : e = emptyLibraryMsg ∨ e = noMatchMsg ∨ e = noBrowseMsg) :
    (shuffleWallpaper curOk libOk histOk blobConv now picks net
        params settings rx st).2 = st := by
  rcases hpool : shufflePool now net (params.source.getD settings.refreshSource)
      (params.nsfwFilter.getD settings.refreshNsfwFilter) rx with e' | avail
  · simp only [shuffleWallpaper, hpool]
  · exfalso
    simp only [shuffleWallpaper, hpool, shuffleFinish] at herr
    have hq := shuffleCommit_fst_err _ _ _ _ _ _ _ herr
    rcases hmsg with h | h | h <;> rw [h] at hq <;> exact absurd hq (by decide)

/-- C8 witness: a concrete empty-library shuffle failure leaves a
populated storage — including its current wallpaper — untouched. -/
theorem C8_witness :
    (shuffleWallpaper true (fun _ => true) true (fun s => s) "t0" (fun _ => 0)
        FetchOutcome.timeout { source := some "library", nsfwFilter := some "off" }
        {} {} { current := some filterCexNsfw, library := [filterCexNsfw] }).2
      = { current := some filterCexNsfw, library := [filterCexNsfw] } :=
  C8_failed_shuffle_keeps_current true (fun _ => true) true (fun s => s) "t0"
    (fun _ => 0) FetchOutcome.timeout
    { source := some "library", nsfwFilter := some "off" } {} {}
    { current := some filterCexNsfw, library := [filterCexNsfw] }
    emptyLibraryMsg rfl (Or.inl rfl)

theorem shuffle_empty_library (curOk : Bool) (libOk : List Wallpaper → Bool)
    (histOk : Bool) (blobConv : String → String) (now : String)
    (picks : Nat → Nat) (net : FetchOutcome) (params : ShuffleParams)
    (settings : Settings) (rx : Redux) (st : Storage)
    (hsrc : params.source.getD settings.refreshSource = "library")
    (hlib : rx.library = []) :
    shuffleWallpaper curOk libOk histOk blobConv now picks net params
      settings rx st = (.error emptyLibraryMsg, st) := by
  have hpool : shufflePool now net (params.source.getD settings.refreshSource)
      (params.nsfwFilter.getD settings.refreshNsfwFilter) rx
      = .error emptyLibraryMsg := by
    rw [hsrc]
    simp [shufflePool, libraryCandidates, hlib]
  simp only [shuffleWallpaper, hpool]

theorem shufflePool_browse_ok (now : String) (data : List ProviderItem)
    (meta : MetaInfo) (nsf : String) (rx : Redux) (hdata : data ≠ []) :
    shufflePool now (.ok data meta) "browse" nsf rx
      = .ok (data.map (mapToWallpaper now)) := by
  have hempty : (data.map (mapToWallpaper now)).isEmpty = false := by
    cases data with
    | nil => exact absurd rfl hdata
    | cons a l => rfl
  unfold shufflePool
  rw [if_neg (by decide)]
  simp only [searchWallpapers, searchAttempt, hempty, Bool.false_eq_true,
    if_false]

theorem shuffleMaybeReAdd_browse (libOk : List Wallpaper → Bool)
    (blobConv : String → String) (now : String) (rx : Redux) (st : Storage)
    (w : Wallpaper) :
    shuffleMaybeReAdd libOk blobConv now "browse" rx st w = st := by
  unfold shuffleMaybeReAdd
  have hg : (("browse" : String) == "library"
      && !(rx.library.any (fun x => x.id == w.id))) = false := by
    rw [show (("browse" : String) == "library") = false from rfl, Bool.false_and]
  rw [if_neg (ne_true_of_eq_false hg)]

theorem wsSave_remote_eq (libOk : List Wallpaper → Bool) (histOk : Bool)
    (blobConv : String → String) (w : Wallpaper) (st : Storage)
    (hrem : (w.sourceType == "local") = false) :
    wsSaveCurrentWallpaper true libOk histOk blobConv w st
      = (none, addToWallpaperHistory histOk w { st with current := some w }) := by
  have hblob : (w.sourceType == "local" && strStartsWith w.path "blob:") = false := by
    rw [hrem, Bool.false_and]
  have hup : (w.sourceType == "local" && w.source == "local_upload") = false := by
    rw [hrem, Bool.false_and]
  unfold wsSaveCurrentWallpaper
  rw [if_neg (ne_true_of_eq_false hblob)]
  unfold wsSaveCore stSaveCurrentWallpaper
  rw [if_pos rfl, if_neg (ne_true_of_eq_false hrem)]
  simp only [hup, Bool.false_eq_true, if_false]

theorem shuffle_browse_ok (libOk : List Wallpaper → Bool) (histOk : Bool)
    (blobConv : String → String) (now : String) (picks : Nat → Nat)
    (data : List ProviderItem) (meta : MetaInfo) (params : ShuffleParams)
    (settings : Settings) (rx : Redux) (st : Storage)
    (hsrc : params.source.getD settings.refreshSource = "browse")
    (hdata : data ≠ []) (hpicks : ∀ k, picks k < data.length) :
    ∃ w stX, w ∈ data.map (mapToWallpaper now)
      ∧ shuffleWallpaper true libOk histOk blobConv now picks (.ok data meta)
          params settings rx st = (.ok w, stX)
      ∧ stX.current = some w := by
  have hpool := shufflePool_browse_ok now data meta
    (params.nsfwFilter.getD settings.refreshNsfwFilter) rx hdata
  have hmem : pickLoop (data.map (mapToWallpaper now)) rx.currentWallpaper picks
      ∈ data.map (mapToWallpaper now) :=
    pickLoop_mem _ _ _ (fun k => by rw [List.length_map]; exact hpicks k)
  have hrem : ((pickLoop (data.map (mapToWallpaper now)) rx.currentWallpaper
      picks).sourceType == "local") = false := by
    rcases List.mem_map.mp hmem with ⟨item, _, hitem⟩
    rw [← hitem]
    rfl
  refine ⟨pickLoop (data.map (mapToWallpaper now)) rx.currentWallpaper picks,
    addToWallpaperHistory histOk
      (pickLoop (data.map (mapToWallpaper now)) rx.currentWallpaper picks)
      { st with current := some (pickLoop (data.map (mapToWallpaper now))
          rx.currentWallpaper picks) },
    hmem, ?_, ?_⟩
  · simp only [shuffleWallpaper, hsrc, hpool, shuffleFinish,
      shuffleMaybeReAdd_browse, shuffleCommit,
      wsSave_remote_eq libOk histOk blobConv _ st hrem]
  · rw [addToWallpaperHistory_current]

/-- C2 counterpart (amended): the browse retry of the background shuffle
happens only when the persisted library is non-empty but the dispatch
itself reports an empty library (the in-memory redux library being
empty); in that case the single retry with the browse source returns
success and persists a provider wallpaper as Current whenever the remote
provider returns at least one result and the storage write succeeds. -/
theorem C2_scheduler_fallback (libOk : List Wallpaper → Bool) (histOk : Bool)
    (blobConv : String → String) (now : String) (picks1 picks2 : Nat → Nat)
    (net1 : FetchOutcome) (data : List ProviderItem) (meta : MetaInfo)
    (bset : BgSettings) (rxSettings : Settings) (rx : Redux) (st : Storage)
    (hsrc : bset.refreshSource = some "library")
    (hstlib : st.library ≠ [])
    (hrxlib : rx.library = [])
    (hdata : data ≠ [])
    (hpicks : ∀ k, picks2 k < data.length) :
    (performWallpaperShuffle true libOk histOk blobConv now picks1 picks2
        net1 (.ok data meta) bset rxSettings rx st).1.success = true
    ∧ ∃ w, w ∈ data.map (mapToWallpaper now)
        ∧ (performWallpaperShuffle true libOk histOk blobConv now picks1 picks2
            net1 (.ok data meta) bset rxSettings rx st).2.current = some w := by
  have hlibempty : st.library.isEmpty = false := by
    cases h : st.library with
    | nil => exact absurd h hstlib
    | cons a l => rfl
  have hguard : (bset.refreshSource == some "library" && st.library.isEmpty)
      = false := by
    rw [hlibempty, Bool.and_false]
  have hfirst := shuffle_empty_library true libOk histOk blobConv now picks1
    net1
    { source := some (bset.refreshSource.getD "library")
      nsfwFilter := some (bset.refreshNsfwFilter.getD "off") }
    rxSettings rx { st with lastShuffleTime := some now }
    (by rw [hsrc]; rfl) hrxlib
  obtain ⟨w, stX, hwmem, hw1, hw2⟩ := shuffle_browse_ok libOk histOk blobConv
    now picks2 data meta
    { source := some "browse"
      nsfwFilter := some (bset.refreshNsfwFilter.getD "off") }
    rxSettings rx { st with lastShuffleTime := some now } rfl hdata hpicks
  have hincl : (strIncludes emptyLibraryMsg "library is empty") = true := by
    decide
  have hcond : (bset.refreshSource == some "library"
      && strIncludes emptyLibraryMsg "library is empty") = true := by
    rw [hsrc, hincl]
    rfl
  constructor
  · simp only [performWallpaperShuffle, hguard, Bool.false_eq_true, if_false,
      hfirst, hcond, if_true, hw1]
  · refine ⟨w, hwmem, ?_⟩
    simp only [performWallpaperShuffle, hguard, Bool.false_eq_true, if_false,
      hfirst, hcond, if_true, hw1]
    exact hw2

/-- C2 witness: concrete run of the amended scheduler-fallback theorem —
persisted library non-empty, redux library empty, provider returning one
item — succeeds and persists the mapped provider wallpaper. -/
theorem C2_witness :
    (performWallpaperShuffle true (fun _ => true) true (fun s => s) "t0"
        (fun _ => 0) (fun _ => 0) FetchOutcome.timeout
        (FetchOutcome.ok [browseCexItem] {})
        { refreshSource := some "library", refreshNsfwFilter := some "off" }
        {} {} { library := [filterCexSafe] }).1.success = true
    ∧ ∃ w, w ∈ [browseCexItem].map (mapToWallpaper "t0")
        ∧ (performWallpaperShuffle true (fun _ => true) true (fun s => s) "t0"
            (fun _ => 0) (fun _ => 0) FetchOutcome.timeout
            (FetchOutcome.ok [browseCexItem] {})
            { refreshSource := some "library", refreshNsfwFilter := some "off" }
            {} {} { library := [filterCexSafe] }).2.current = some w :=
  C2_scheduler_fallback (fun _ => true) true (fun s => s) "t0"
    (fun _ => 0) (fun _ => 0) FetchOutcome.timeout [browseCexItem] {}
    { refreshSource := some "library", refreshNsfwFilter := some "off" }
    {} {} { library := [filterCexSafe] }
    rfl (List.cons_ne_nil _ _) rfl (List.cons_ne_nil _ _)
    (fun _ => Nat.zero_lt_one)

theorem contains_iff_mem_str (l : List String) (a : String) :
    l.contains a = true ↔ a ∈ l := by
  simp [List.contains, List.elem_eq_mem]

theorem mem_dedupStep (ks : List String) (k a : String) :
    a ∈ dedupStep ks k ↔ a ∈ ks ∨ a = k := by
  unfold dedupStep
  by_cases hc : ks.contains k = true
  · rw [if_pos hc]
    constructor
    · exact Or.inl
    · rintro (h | rfl)
      · exact h
      · exact (contains_iff_mem_str _ _).mp hc
  · rw [if_neg hc]
    simp [List.mem_append]

theorem foldl_dedupStep_mem : ∀ (l acc : List String) (a : String),
    a ∈ l.foldl dedupStep acc ↔ a ∈ acc ∨ a ∈ l := by
  intro l
  induction l with
  | nil => intro acc a; simp
  | cons k l ih =>
      intro acc a
      rw [List.foldl_cons, ih (dedupStep acc k) a, mem_dedupStep]
      simp only [List.mem_cons]
      tauto

theorem foldl_dedupStep_nodup : ∀ (l acc : List String), acc.Nodup →
    (l.foldl dedupStep acc).Nodup := by
  intro l
  induction l with
  | nil => intro acc h; exact h
  | cons k l ih =>
      intro acc h
      rw [List.foldl_cons]
      refine ih (dedupStep acc k) ?_
      unfold dedupStep
      by_cases hc : acc.contains k = true
      · rw [if_pos hc]; exact h
      · rw [if_neg hc]
        refine List.nodup_append.mpr ⟨h, List.nodup_singleton k, ?_⟩
        intro a ha hk
        rw [List.mem_singleton.mp hk] at ha
        exact hc ((contains_iff_mem_str _ _).mpr ha)

theorem foldl_dedupStep_length_le : ∀ (l acc : List String),
    (l.foldl dedupStep acc).length ≤ acc.length + l.length := by
  intro l
  induction l with
  | nil => intro acc; simp
  | cons k l ih =>
      intro acc
      rw [List.foldl_cons]
      have h1 := ih (dedupStep acc k)
      have h2 : (dedupStep acc k).length ≤ acc.length + 1 := by
        unfold dedupStep
        by_cases hc : acc.contains k = true
        · rw [if_pos hc]; omega
        · rw [if_neg hc, List.length_append]; simp
      simp only [List.length_cons]
      omega

theorem nodup_of_foldl_dedupStep_length : ∀ (l acc : List String),
    (l.foldl dedupStep acc).length = acc.length + l.length →
    l.Nodup ∧ ∀ a ∈ l, a ∉ acc := by
  intro l
  induction l with
  | nil => intro acc _; exact ⟨List.nodup_nil, by simp⟩
  | cons k l ih =>
      intro acc h
      rw [List.foldl_cons] at h
      by_cases hc : acc.contains k = true
      · exfalso
        rw [show dedupStep acc k = acc from if_pos hc] at h
        have := foldl_dedupStep_length_le l acc
        simp only [List.length_cons] at h
        omega
      · have hstep : dedupStep acc k = acc ++ [k] := if_neg hc
        rw [hstep] at h
        have h2 : (l.foldl dedupStep (acc ++ [k])).length
            = (acc ++ [k]).length + l.length := by
          rw [List.length_append]
          simp only [List.length_cons] at h
          simp only [List.length_singleton]
          omega
        obtain ⟨hnd, hnotin⟩ := ih (acc ++ [k]) h2
        have hknotacc : k ∉ acc := fun hk =>
          hc ((contains_iff_mem_str _ _).mpr hk)
        refine ⟨List.nodup_cons.mpr ⟨?_, hnd⟩, ?_⟩
        · intro hkl
          exact hnotin k hkl
            (List.mem_append.mpr (Or.inr (List.mem_singleton.mpr rfl)))
        · intro a ha
          rcases List.mem_cons.mp ha with rfl | ha
          · exact hknotacc
          · intro hacc
            exact hnotin a ha (List.mem_append.mpr (Or.inl hacc))

theorem mem_firstOccur (l : List String) (a : String) :
    a ∈ firstOccur l ↔ a ∈ l := by
  unfold firstOccur
  rw [foldl_dedupStep_mem]
  simp

theorem firstOccur_nodup (l : List String) : (firstOccur l).Nodup :=
  foldl_dedupStep_nodup l [] List.nodup_nil

theorem nodup_of_firstOccur_length (l : List String)
    (h : (firstOccur l).length = l.length) : l.Nodup :=
  (nodup_of_foldl_dedupStep_length l [] (by simpa using h)).1

theorem mapInsert_keys (m : List (String × Wallpaper)) (k : String)
    (v : Wallpaper) :
    (mapInsert m k v).map (fun p => p.1)
      = if m.any (fun p => p.1 == k) then m.map (fun p => p.1)
        else m.map (fun p => p.1) ++ [k] := by
  unfold mapInsert
  by_cases hc : m.any (fun p => p.1 == k) = true
  · rw [if_pos hc, if_pos hc, List.map_map]
    apply List.map_congr_left
    intro p hp
    show (if p.1 == k then (k, v) else p).1 = p.1
    by_cases h : (p.1 == k) = true
    · rw [if_pos h]
      exact (beq_iff_eq.mp h).symm
    · rw [if_neg h]
  · rw [if_neg hc, if_neg hc, List.map_append]
    rfl

theorem mapInsert_inv (m : List (String × Wallpaper)) (k : String)
    (v : Wallpaper) (hm : ∀ p ∈ m, (p : String × Wallpaper).2.id = p.1)
    (hv : v.id = k) :
    ∀ p ∈ mapInsert m k v, p.2.id = p.1 := by
  intro p hp
  unfold mapInsert at hp
  by_cases hc : m.any (fun p => p.1 == k) = true
  · rw [if_pos hc] at hp
    rcases List.mem_map.mp hp with ⟨q, hq, hqe⟩
    by_cases h : (q.1 == k) = true
    · rw [if_pos h] at hqe
      rw [← hqe]
      exact hv
    · rw [if_neg h] at hqe
      rw [← hqe]
      exact hm q hq
  · rw [if_neg hc] at hp
    rcases List.mem_append.mp hp with h | h
    · exact hm p h
    · rw [List.mem_singleton.mp h]
      exact hv

theorem jsMapOf_aux_inv (lib : List Wallpaper) :
    ∀ m, (∀ p ∈ m, (p : String × Wallpaper).2.id = p.1) →
      ∀ p ∈ lib.foldl (fun m w => mapInsert m w.id w) m, p.2.id = p.1 := by
  induction lib with
  | nil => intro m hm; simpa using hm
  | cons w lib ih =>
      intro m hm
      rw [List.foldl_cons]
      exact ih _ (mapInsert_inv m w.id w hm rfl)

theorem jsMapOf_inv (lib : List Wallpaper) :
    ∀ p ∈ jsMapOf lib, (p : String × Wallpaper).2.id = p.1 :=
  jsMapOf_aux_inv lib [] (by intro p hp; cases hp)

theorem any_fst_eq_contains (m : List (String × Wallpaper)) (k : String) :
    m.any (fun p => p.1 == k) = (m.map (fun p => p.1)).contains k := by
  cases h : (m.map (fun p => p.1)).contains k
  · cases h2 : m.any (fun p => p.1 == k)
    · rfl
    · exfalso
      rcases List.any_eq_true.mp h2 with ⟨p, hp, hpk⟩
      have : k ∈ m.map (fun p => p.1) :=
        List.mem_map.mpr ⟨p, hp, beq_iff_eq.mp hpk⟩
      rw [(contains_iff_mem_str _ _).mpr this] at h
      exact Bool.noConfusion h
  · rcases List.mem_map.mp ((contains_iff_mem_str _ _).mp h) with ⟨p, hp, hpk⟩
    exact List.any_eq_true.mpr ⟨p, hp, beq_iff_eq.mpr hpk⟩

theorem keys_foldl (lib : List Wallpaper) :
    ∀ m : List (String × Wallpaper),
      (lib.foldl (fun m w => mapInsert m w.id w) m).map (fun p => p.1)
        = (lib.map (fun w => w.id)).foldl dedupStep (m.map (fun p => p.1)) := by
  induction lib with
  | nil => intro m; rfl
  | cons w lib ih =>
      intro m
      rw [List.foldl_cons, ih (mapInsert m w.id w), mapInsert_keys,
        List.map_cons, List.foldl_cons, any_fst_eq_contains]
      rfl

theorem foldl_insert_of_nodup (lib : List Wallpaper) :
    ∀ m : List (String × Wallpaper),
      ((m.map (fun p => p.1)) ++ lib.map (fun w => w.id)).Nodup →
      lib.foldl (fun m w => mapInsert m w.id w) m
        = m ++ lib.map (fun w => (w.id, w)) := by
  induction lib with
  | nil => intro m _; simp
  | cons w lib ih =>
      intro m hnd
      rw [List.foldl_cons]
      have hnotin : w.id ∉ m.map (fun p => p.1) := by
        rw [List.map_cons] at hnd
        have hd := (List.nodup_append.mp hnd).2.2
        intro hmem
        exact hd hmem (List.mem_cons_self _ _)
      have hany : m.any (fun p => p.1 == w.id) = false := by
        cases h : m.any (fun p => p.1 == w.id)
        · rfl
        · exfalso
          rcases List.any_eq_true.mp h with ⟨p, hp, hpk⟩
          exact hnotin (List.mem_map.mpr ⟨p, hp, beq_iff_eq.mp hpk⟩)
      have hins : mapInsert m w.id w = m ++ [(w.id, w)] := by
        unfold mapInsert
        rw [if_neg (ne_true_of_eq_false hany)]
      have hnd2 : (((m ++ [(w.id, w)]).map (fun p => p.1))
          ++ lib.map (fun w => w.id)).Nodup := by
        rw [List.map_append]
        rw [List.map_cons, List.append_cons] at hnd
        exact hnd
      rw [hins, ih (m ++ [(w.id, w)]) hnd2, List.append_assoc]
      rfl

theorem dedupById_map_id (lib : List Wallpaper) :
    (dedupById lib).map (fun w => w.id)
      = firstOccur (lib.map (fun w => w.id)) := by
  unfold dedupById
  rw [List.map_map]
  have h1 : (jsMapOf lib).map ((fun w => w.id) ∘ (fun p => p.2))
      = (jsMapOf lib).map (fun p => p.1) :=
    List.map_congr_left (fun p hp => jsMapOf_inv lib p hp)
  rw [h1]
  show (lib.foldl (fun m w => mapInsert m w.id w) []).map (fun p => p.1) = _
  rw [keys_foldl lib []]
  rfl

theorem dedupById_eq_of_nodup (lib : List Wallpaper)
    (h : (lib.map (fun w => w.id)).Nodup) : dedupById lib = lib := by
  unfold dedupById jsMapOf
  rw [foldl_insert_of_nodup lib [] (by simpa using h), List.nil_append,
    List.map_map]
  exact List.map_id lib

/-- C7: when the persist write fits the quota, every `fetchLibrary` read
returns a view whose ids are unique and come in first-occurrence order of
the stored list, the stored library after the call equals the returned
view (the corrected list is persisted exactly when duplicates were found,
and otherwise the store already equals the view), and the view keeps
exactly the ids of the stored list — so after the read the stored library
has exactly one entry per id.  The final conjunct records the error path:
when duplicates were found but the persist write fails, the thunk catch
returns the empty view and the store keeps its duplicates. -/
theorem C7_dedup_self_heal (libOk : List Wallpaper → Bool)
    (lib : List Wallpaper) (hok : libOk (dedupById lib) = true) :
    ((fetchLibraryModel libOk lib).1.map (fun w => w.id)).Nodup
    ∧ (fetchLibraryModel libOk lib).2 = (fetchLibraryModel libOk lib).1
    ∧ (fetchLibraryModel libOk lib).1.map (fun w => w.id)
        = firstOccur (lib.map (fun w => w.id))
    ∧ (∀ i : String, i ∈ (fetchLibraryModel libOk lib).1.map (fun w => w.id)
        ↔ i ∈ lib.map (fun w => w.id))
    ∧ (∀ libOk2 : List Wallpaper → Bool, libOk2 (dedupById lib) = false →
        ((dedupById lib).length != lib.length) = true →
        fetchLibraryModel libOk2 lib = ([], lib)) := by
  have hfst : (fetchLibraryModel libOk lib).1 = dedupById lib := by
    simp only [fetchLibraryModel]
    by_cases h : ((dedupById lib).length != lib.length) = true
    · rw [if_pos h, if_pos hok]
    · rw [if_neg h]
  refine ⟨?_, ?_, ?_, ?_, ?_⟩
  · rw [hfst, dedupById_map_id]
    exact firstOccur_nodup _
  · simp only [fetchLibraryModel]
    by_cases h : ((dedupById lib).length != lib.length) = true
    · rw [if_pos h, if_pos hok]
    · rw [if_neg h]
      have hbe : ((dedupById lib).length == lib.length) = true := by
        cases hb : ((dedupById lib).length == lib.length)
        · exfalso
          apply h
          simp [bne, hb]
        · rfl
      have hlen : (dedupById lib).length = lib.length := beq_iff_eq.mp hbe
      have hnodup : (lib.map (fun w => w.id)).Nodup := by
        apply nodup_of_firstOccur_length
        rw [← dedupById_map_id]
        rw [List.length_map, List.length_map]
        exact hlen
      exact (dedupById_eq_of_nodup lib hnodup).symm
  · rw [hfst, dedupById_map_id]
  · intro i
    rw [hfst, dedupById_map_id]
    exact mem_firstOccur _ i
  · intro libOk2 hfail hlen
    simp only [fetchLibraryModel]
    rw [if_pos hlen, if_neg (ne_true_of_eq_false hfail)]

/-- C7 witness: a concrete duplicated library is self-healed when the
persist write succeeds, and kept duplicated (with an empty view) when the
persist write fails. -/
theorem C7_witness :
    ((fetchLibraryModel (fun _ => true)
        [filterCexSafe, filterCexNsfw, filterCexSafe]).1.map
        (fun w => w.id)).Nodup
    ∧ (fetchLibraryModel (fun _ => true)
        [filterCexSafe, filterCexNsfw, filterCexSafe]).2
      = (fetchLibraryModel (fun _ => true)
        [filterCexSafe, filterCexNsfw, filterCexSafe]).1
    ∧ (fetchLibraryModel (fun _ => true)
        [filterCexSafe, filterCexNsfw, filterCexSafe]).1.map (fun w => w.id)
      = firstOccur (([filterCexSafe, filterCexNsfw, filterCexSafe]).map
          (fun w => w.id))
    ∧ ("a" ∈ (fetchLibraryModel (fun _ => true)
        [filterCexSafe, filterCexNsfw, filterCexSafe]).1.map (fun w => w.id)
        ↔ "a" ∈ ([filterCexSafe, filterCexNsfw, filterCexSafe]).map
            (fun w => w.id))
    ∧ fetchLibraryModel (fun _ => false)
        [filterCexSafe, filterCexNsfw, filterCexSafe]
      = ([], [filterCexSafe, filterCexNsfw, filterCexSafe]) := by
  have h := C7_dedup_self_heal (fun _ => true)
    [filterCexSafe, filterCexNsfw, filterCexSafe] rfl
  exact ⟨h.1, h.2.1, h.2.2.1, h.2.2.2.1 "a", h.2.2.2.2 (fun _ => false) rfl rfl⟩

end NyaTab
